import Mathlib

/-!
Verification development for the uDis MicroPython decompiler
(src/main.py and src/Decompiler.py).

The lifter (`uDecompiler.pass_0` in src/main.py) is embedded as a
fuel-indexed interpreter `UDis.run` over an explicit lifter state
(operand stack, auxiliary stack, statement list).  Python exceptions
(IndexError on `list.pop(0)` of an empty stack, KeyError on a missing
code-block descriptor, ValueError from `int`, AttributeError from
attribute access on unsuitable objects or on `None`) are modelled as
values of `UDis.LErr`.  The CFG builder (`uDecompiler.pass_0` in
src/Decompiler.py) is embedded in namespace `UDisCfg`.
-/

namespace UDis

/-- Python primitive constant values as they appear in the lifter
(`ast.Constant` payloads and the entries of the auxiliary stack, which
holds strings and ints). -/
inductive PyVal : Type where
  | vInt (i : Int)
  | vStr (s : String)
  | vBool (b : Bool)
  | vNone
  deriving DecidableEq, Repr

/-- Expression context tags (`ast.Load` / `ast.Store`). -/
inductive CtxK : Type where
  | load
  | store
  deriving DecidableEq, Repr

/-- Binary operator tags produced by the BINARY_OP case (`ast.Add`, `ast.Sub`). -/
inductive BinK : Type where
  | add
  | sub
  deriving DecidableEq, Repr

/-- Comparison operator tags produced by the BINARY_OP case (`ast.Gt`). -/
inductive CmpK : Type where
  | gt
  deriving DecidableEq, Repr

/-- An `ast.alias` node: `name` is whatever value the lifter passed to the
constructor (a popped constant's `.value`, hence a `PyVal`), `asname` is
set by the STORE_NAME rename logic. -/
structure AliasA : Type where
  name : PyVal
  asname : Option String
  deriving DecidableEq, Repr

/-- The AST node language built by the lifter, mirroring the `ast.*`
constructors used in src/main.py.  `call` carries the kwargs dict built
by CALL_FUNCTION (`kwargs[key] = value`, modelled as an insertion-ordered
association list), `callM` carries the `ast.keyword` list built by
CALL_METHOD. -/
inductive Ast : Type where
  | constant (v : PyVal)
  | name (id : String) (ctx : CtxK)
  | imprt (names : List AliasA)
  | importFromNode (modl : PyVal) (names : List AliasA) (level : Nat)
  | tupleE (elts : List Ast)
  | listE (elts : List Ast)
  | attributeE (obj : Ast) (attr : String) (ctx : Option CtxK)
  | subscriptE (obj : Ast) (idx : Ast) (ctx : CtxK)
  | call (func : Ast) (args : List Ast) (kwargs : List (Ast × Ast))
  | callM (func : Ast) (args : List Ast) (kwargs : List (PyVal × Ast))
  | binOp (l : Ast) (op : BinK) (r : Ast)
  | compare (l : Ast) (ops : List CmpK) (rs : List Ast)
  | assign (targets : List Ast) (value : Ast)
  | ret (value : Ast)
  | functionDef (nm : String) (args : List String) (body : List Ast)
  | classDef (nm : PyVal) (body : List Ast)

/-- Errors: the Python exceptions the lifter can raise, plus `noFuel`
(an artifact of the fuel-indexed embedding of the recursive lifter). -/
inductive LErr : Type where
  | underflow
  | keyError
  | valueError
  | attrError
  | indexError
  | noneType
  | noFuel
  deriving DecidableEq, Repr

/-- One disassembled instruction (`Bytecode` in src/main.py): byte offset,
opcode text and raw operand text. -/
structure BC : Type where
  offset : Nat
  opcode : String
  operands : String
  deriving DecidableEq, Repr

/-- One code block (`CodeBlock` in src/main.py): display name, argument
names and the instruction list in offset order (the insertion order of
the `code` dict). -/
structure CBk : Type where
  nm : String
  args : List String
  code : List BC
  deriving DecidableEq, Repr

/-- The block table `uDecompiler.blocks`, keyed by descriptor. -/
abbrev Blocks : Type := List (String × CBk)

/-- Lifter state: the operand stack `self.stack` (list head = top), the
per-call auxiliary stack `aux_stack`, and the statement list `tree`. -/
structure LState : Type where
  stack : List Ast
  aux : List PyVal
  tree : List Ast

/-- Result of processing a single instruction. -/
inductive StepRes : Type where
  | ok (s : LState)
  | done (s : LState)
  | fail (e : LErr)

/-- Result of running an instruction list: `cont` carries the remaining
fuel, `brk` is a loop exited by `break`. -/
inductive Flow : Type where
  | cont (fuel : Nat) (s : LState)
  | brk (fuel : Nat) (s : LState)
  | err (e : LErr)

/-- Python `s[1:-1]`: drop the first and the last character. -/
def strip1 (s : String) : String :=
  String.mk ((s.toList.drop 1).dropLast)

/-- Python `str.split()` on the operand text (whitespace split, empty
pieces discarded). -/
def splitWs (s : String) : List String :=
  (s.splitOn " ").filter (fun p => p ≠ "")

/-- Python `int(s)`, returning `none` where `int` raises ValueError. -/
def pyInt (s : String) : Option Int :=
  s.toInt?

/-- Python list indexing `l[i]` with negative-index wrap-around;
`none` models IndexError. -/
def pyGet {α : Type} (l : List α) (i : Int) : Option α :=
  let j : Int := if i < 0 then (l.length : Int) + i else i
  if j < 0 then none else l.get? j.toNat

/-- Pop `n` values: models `[self.stack.pop() for _ in range(n)]`; the
returned list has the first-popped value first.  `none` models
IndexError on an empty stack. -/
def popN : Nat → List Ast → Option (List Ast × List Ast)
  | 0, st => some ([], st)
  | k+1, st =>
    match st with
    | [] => none
    | x :: rest =>
      match popN k rest with
      | none => none
      | some (l, st2) => some (x :: l, st2)

/-- The CALL_FUNCTION kwargs loop: `kwargs[self.stack.pop()] = self.stack.pop()`
performed `nkw` times.  Python evaluates the right-hand side first, so
the value is popped before the key; dict insertion order is kept. -/
def popKwPairs : Nat → List Ast → List (Ast × Ast) →
    Option (List (Ast × Ast) × List Ast)
  | 0, st, acc => some (acc, st)
  | k+1, st, acc =>
    match st with
    | v :: ky :: rest => popKwPairs k rest (acc ++ [(ky, v)])
    | _ => none

/-- The CALL_METHOD kwargs loop: `val = pop(); kwargs.append(ast.keyword(pop().value, val))`.
The second pop must be a constant (otherwise `.value` raises
AttributeError, modelled by the `Except`). -/
def popKwItems : Nat → List Ast → List (PyVal × Ast) →
    Except LErr (List (PyVal × Ast) × List Ast)
  | 0, st, acc => .ok (acc, st)
  | k+1, st, acc =>
    match st with
    | v :: knode :: rest =>
      match knode with
      | .constant kv => popKwItems k rest (acc ++ [(kv, v)])
      | _ => .error .attrError
    | _ => .error .underflow

/-- `n.value` for every element of a fromlist tuple; `none` models the
AttributeError raised when an element is not an `ast.Constant`. -/
def constValues : List Ast → Option (List PyVal)
  | [] => some []
  | .constant v :: rest =>
    match constValues rest with
    | none => none
    | some vs => some (v :: vs)
  | _ => none

/-- The `.names` attribute: present on `Import` and `ImportFrom` nodes. -/
def astNamesOf : Ast → Option (List AliasA)
  | .imprt ns => some ns
  | .importFromNode _ ns _ => some ns
  | _ => none

/-- Rebuild a node after its `.names` list was updated in place. -/
def withNames (a : Ast) (ns : List AliasA) : Ast :=
  match a with
  | .imprt _ => .imprt ns
  | .importFromNode m _ l => .importFromNode m ns l
  | x => x

/-- The STORE_NAME rename loop `for x in peek().names: if x.name == orig: a = x`
keeps the last match; `a.asname = operands` then updates that alias.
`none` models the AttributeError on `a = None` when no alias matches. -/
def renameLast : List AliasA → PyVal → String → Option (List AliasA)
  | [], _, _ => none
  | a :: as_, orig, nw =>
    match renameLast as_ orig nw with
    | some as2 => some (a :: as2)
    | none =>
      if a.name = orig then some ({ a with asname := some nw } :: as_)
      else none

/-- The `.body` attribute: present on `FunctionDef` and `ClassDef`. -/
def astBodyOf : Ast → Option (List Ast)
  | .functionDef _ _ b => some b
  | .classDef _ b => some b
  | _ => none

/-- The `.value` attribute of a popped node, defined for constants. -/
def constVal : Ast → Option PyVal
  | .constant v => some v
  | _ => none

/-- Parse `CALL_FUNCTION` / `CALL_METHOD` operand text
`n=<p> nkw=<q>`: `parts[0].split("=")[1]` and `parts[1].split("=")[1]`
through `int`. -/
def parseNkw (ops : String) : Except LErr (Int × Int) :=
  let parts := splitWs ops
  match parts.get? 0 with
  | none => .error .indexError
  | some p0 =>
    match (p0.splitOn "=").get? 1 with
    | none => .error .indexError
    | some v0 =>
      match pyInt v0 with
      | none => .error .valueError
      | some n =>
        match parts.get? 1 with
        | none => .error .indexError
        | some p1 =>
          match (p1.splitOn "=").get? 1 with
          | none => .error .indexError
          | some v1 =>
            match pyInt v1 with
            | none => .error .valueError
            | some nkw => .ok (n, nkw)

/-- Lookahead helper: the `zip_longest(instrs, instrs[1:])` pairing gives
instruction `i` the next instruction when one exists; `la` is the
lookahead supplied for the last element of the list. -/
def headOr (l : List BC) (la : Option BC) : Option BC :=
  match l with
  | [] => la
  | j :: _ => some j


/-- One instruction of the `pass_0` dispatch loop of src/main.py
(every case except MAKE_FUNCTION, which recurses and is handled in
`run`).  `nx` is the `zip_longest` lookahead partner of `i`; `cb` is the
enclosing code block (consulted by LOAD_FAST / STORE_FAST for argument
names).  Unknown opcodes only log a warning and leave the state
unchanged. -/
def step (cb : CBk) (i : BC) (nx : Option BC) (s : LState) : StepRes :=
  match i.opcode with
  | "LOAD_CONST_SMALL_INT" =>
    match pyInt i.operands with
    | none => .fail .valueError
    | some n => .ok { s with stack := .constant (.vInt n) :: s.stack }
  | "LOAD_CONST_NONE" => .ok { s with stack := .constant .vNone :: s.stack }
  | "LOAD_CONST_TRUE" => .ok { s with stack := .constant (.vBool true) :: s.stack }
  | "LOAD_CONST_FALSE" => .ok { s with stack := .constant (.vBool false) :: s.stack }
  | "LOAD_CONST_STRING" =>
    .ok { s with stack := .constant (.vStr (strip1 i.operands)) :: s.stack }
  | "LOAD_CONST_OBJ" =>
    let data := String.intercalate "=" ((i.operands.splitOn "=").drop 1)
    .ok { s with stack := .constant (.vStr (strip1 data)) :: s.stack }
  | "LOAD_NAME" => .ok { s with stack := .name i.operands .load :: s.stack }
  | "IMPORT_NAME" =>
    match s.stack with
    | fromlist :: _level :: rest =>
      match fromlist with
      | .constant .vNone =>
        let a : AliasA := ⟨.vStr (strip1 i.operands), none⟩
        .ok { stack := .imprt [a] :: rest,
              aux := .vStr (strip1 i.operands) :: s.aux,
              tree := s.tree }
      | .tupleE elts =>
        match constValues elts with
        | none => .fail .attrError
        | some vs =>
          .ok { stack := .imprt (vs.map (fun v => ⟨v, none⟩)) :: rest,
                aux := .vStr (strip1 i.operands) :: (vs.reverse ++ s.aux),
                tree := s.tree }
      | _ => .ok { s with stack := rest }
    | _ => .fail .underflow
  | "IMPORT_FROM" =>
    match s.stack with
    | [] => .fail .underflow
    | top :: _ =>
      match top with
      | .imprt names =>
        match s.aux with
        | [] => .fail .underflow
        | m :: auxRest =>
          .ok { stack := .importFromNode m names 0 :: s.stack,
                aux := auxRest, tree := s.tree }
      | _ => .ok s
  | "STORE_NAME" =>
    match s.aux with
    | orig :: auxRest =>
      if orig = PyVal.vStr i.operands then
        if auxRest.isEmpty then
          match s.stack with
          | x :: rest => .ok { stack := rest, aux := auxRest, tree := s.tree ++ [x] }
          | [] => .fail .underflow
        else .ok { s with aux := auxRest }
      else
        match s.stack with
        | [] => .fail .underflow
        | top :: rest =>
          match astNamesOf top with
          | none => .fail .attrError
          | some names =>
            match renameLast names orig i.operands with
            | none => .fail .attrError
            | some names2 =>
              let top2 := withNames top names2
              if auxRest.isEmpty then
                .ok { stack := rest, aux := auxRest, tree := s.tree ++ [top2] }
              else
                .ok { stack := top2 :: rest, aux := auxRest, tree := s.tree }
    | [] =>
      match s.stack with
      | [] => .fail .underflow
      | top :: rest =>
        match top with
        | .functionDef _ _ _ => .ok { s with stack := rest, tree := s.tree ++ [top] }
        | .classDef _ _ => .ok { s with stack := rest }
        | _ =>
          .ok { s with stack := rest, tree := s.tree ++ [.assign [.name i.operands .store] top] }
  | "BUILD_TUPLE" =>
    match pyInt i.operands with
    | none => .fail .valueError
    | some n =>
      match popN n.toNat s.stack with
      | none => .fail .underflow
      | some (l, rest) => .ok { s with stack := .tupleE l :: rest }
  | "BUILD_LIST" =>
    match pyInt i.operands with
    | none => .fail .valueError
    | some n =>
      match popN n.toNat s.stack with
      | none => .fail .underflow
      | some (l, rest) => .ok { s with stack := .listE l :: rest }
  | "POP_TOP" =>
    match s.stack with
    | [] => .fail .underflow
    | _ :: rest => .ok { s with stack := rest }
  | "LOAD_BUILD_CLASS" => .ok { s with aux := .vStr "BUILD_CLASS" :: s.aux }
  | "RETURN_VALUE" =>
    match s.stack with
    | [] => .fail .underflow
    | v :: rest => .ok { s with stack := rest, tree := s.tree ++ [.ret v] }
  | "CALL_FUNCTION" =>
    if s.aux.head? = some (PyVal.vStr "BUILD_CLASS") then
      match s.stack with
      | nmc :: clsv :: rest =>
        match constVal nmc, astBodyOf clsv with
        | some nv, some bdy =>
          let c := Ast.classDef nv bdy
          .ok { stack := c :: rest, aux := s.aux.tail, tree := s.tree ++ [c] }
        | _, _ => .fail .attrError
      | _ => .fail .underflow
    else
      match parseNkw i.operands with
      | .error e => .fail e
      | .ok (n, nkw) =>
        match popKwPairs nkw.toNat s.stack [] with
        | none => .fail .underflow
        | some (kw, st1) =>
          match popN n.toNat st1 with
          | none => .fail .underflow
          | some (args, st2) =>
            match st2 with
            | [] => .fail .underflow
            | f :: st3 =>
              let cal := Ast.call f args kw
              match nx with
              | none => .fail .noneType
              | some nxt =>
                if nxt.opcode = "POP_TOP" then
                  .ok { stack := cal :: st3, aux := s.aux, tree := s.tree ++ [cal] }
                else
                  .ok { stack := cal :: st3, aux := s.aux, tree := s.tree }
  | "LOAD_GLOBAL" => .ok { s with stack := .name i.operands .load :: s.stack }
  | "LOAD_METHOD" =>
    match s.stack with
    | [] => .fail .underflow
    | obj :: rest =>
      .ok { s with stack := .attributeE obj i.operands none :: rest }
  | "LOAD_FAST" =>
    match pyInt i.operands with
    | none => .fail .valueError
    | some n =>
      if n < (cb.args.length : Int) then
        match pyGet cb.args n with
        | none => .fail .indexError
        | some a => .ok { s with stack := .name a .load :: s.stack }
      else
        .ok { s with stack := .name ("local_" ++ toString (n - (cb.args.length : Int))) .load :: s.stack }
  | "STORE_FAST" =>
    match pyInt i.operands with
    | none => .fail .valueError
    | some n =>
      let tgt : Except LErr Ast :=
        if n < (cb.args.length : Int) then
          match pyGet cb.args n with
          | none => .error .indexError
          | some a => .ok (.name a .store)
        else
          .ok (.name ("local_" ++ toString (n - (cb.args.length : Int))) .store)
      match tgt with
      | .error e => .fail e
      | .ok v =>
        match s.stack with
        | [] => .fail .underflow
        | x :: rest =>
          .ok { s with stack := rest, tree := s.tree ++ [.assign [v] x] }
  | "LOAD_ATTR" =>
    match s.stack with
    | [] => .fail .underflow
    | obj :: rest =>
      .ok { s with stack := .attributeE obj i.operands (some .load) :: rest }
  | "LOAD_SUBSCR" =>
    match s.stack with
    | sub :: obj :: rest =>
      .ok { s with stack := .subscriptE obj sub .load :: rest }
    | _ => .fail .underflow
  | "STORE_ATTR" =>
    match s.stack with
    | obj :: v :: rest =>
      .ok { s with stack := rest, tree := s.tree ++ [.assign [.attributeE obj i.operands (some .store)] v] }
    | _ => .fail .underflow
  | "CALL_METHOD" =>
    match parseNkw i.operands with
    | .error e => .fail e
    | .ok (n, nkw) =>
      match popKwItems nkw.toNat s.stack [] with
      | .error e => .fail e
      | .ok (kw, st1) =>
        match popN n.toNat st1 with
        | none => .fail .underflow
        | some (args, st2) =>
          match st2 with
          | [] => .fail .underflow
          | f :: st3 =>
            let cal := Ast.callM f args kw
            match nx with
            | none => .fail .noneType
            | some nxt =>
              if nxt.opcode = "POP_TOP" then
                .ok { stack := cal :: st3, aux := s.aux, tree := s.tree ++ [cal] }
              else
                .ok { stack := cal :: st3, aux := s.aux, tree := s.tree }
  | "DUP_TOP" =>
    match s.stack with
    | [] => .fail .underflow
    | top :: rest => .ok { s with stack := top :: top :: rest }
  | "GET_ITER_STACK" =>
    match s.stack with
    | [] => .fail .underflow
    | _ :: rest => .done { s with stack := rest }
  | "BINARY_OP" =>
    match splitWs i.operands with
    | [nS, d] =>
      if d = "__gt__" then
        match pyInt nS with
        | none => .fail .valueError
        | some n =>
          match popN n.toNat s.stack with
          | none => .fail .underflow
          | some (nl, st1) =>
            match st1 with
            | [] => .fail .underflow
            | l :: rest =>
              .ok { s with stack := .compare l [.gt] nl :: rest }
      else if d = "__iadd__" then
        match s.stack with
        | r :: l :: rest => .ok { s with stack := .binOp l .add r :: rest }
        | _ => .fail .underflow
      else if d = "__isub__" then
        match s.stack with
        | r :: l :: rest => .ok { s with stack := .binOp l .sub r :: rest }
        | _ => .fail .underflow
      else if d = "__add__" then
        match s.stack with
        | r :: l :: rest => .ok { s with stack := .binOp l .add r :: rest }
        | _ => .fail .underflow
      else .ok s
    | _ => .ok s
  | "ROT_TWO" =>
    match s.stack with
    | a :: b :: rest => .ok { s with stack := b :: a :: rest }
    | _ => .fail .underflow
  | "ROT_THREE" =>
    match s.stack with
    | a :: b :: c :: rest => .ok { s with stack := a :: c :: b :: rest }
    | _ => .fail .underflow
  | "POP_JUMP_IF_TRUE" =>
    match s.stack with
    | [] => .fail .underflow
    | _ :: rest => .done { s with stack := rest }
  | "FOR_ITER" =>
    match pyInt i.operands with
    | none => .fail .valueError
    | some t => .ok { s with aux := .vInt (t + (i.offset : Int)) :: s.aux }
  | _ => .ok s


/-- The `pass_0` instruction loop of src/main.py.  `fuel` bounds the
combined recursion (it decreases only when MAKE_FUNCTION enters a nested
code block); `la` is the lookahead partner supplied for the last
instruction of the list (`none` at the top of a `pass_0` call, matching
`zip_longest`).  MAKE_FUNCTION is handled here because it recursively
lifts the referenced code block on the same shared operand stack
`self.stack`, with a fresh auxiliary stack and a fresh statement list,
then pushes the resulting FunctionDef. -/
def run (bl : Blocks) (fuel : Nat) (cb : CBk) (code : List BC)
    (la : Option BC) (s : LState) : Flow :=
  match code, fuel with
  | [], f => .cont f s
  | _ :: _, 0 => .err .noFuel
  | i :: rest, f+1 =>
    if i.opcode = "MAKE_FUNCTION" then
      match List.lookup i.operands bl with
      | none => .err .keyError
      | some fcb =>
        match run bl f fcb fcb.code none ⟨s.stack, [], []⟩ with
        | .cont _ s2 =>
          run bl f cb rest la
            ⟨Ast.functionDef fcb.nm fcb.args s2.tree :: s2.stack, s.aux, s.tree⟩
        | .brk _ s2 =>
          run bl f cb rest la
            ⟨Ast.functionDef fcb.nm fcb.args s2.tree :: s2.stack, s.aux, s.tree⟩
        | .err e => .err e
    else
      match step cb i (headOr rest la) s with
      | .ok s2 => run bl f cb rest la s2
      | .done s2 => .brk f s2
      | .fail e => .err e

/-- `uDecompiler.pass_0(desc)` of src/main.py: look up the code block and
run its instruction list from a fresh auxiliary stack and statement list,
on the current (shared) operand stack.  Returns the statement list
together with the operand stack left behind. -/
def pass0 (bl : Blocks) (fuel : Nat) (desc : String) (stack0 : List Ast) :
    Except LErr (List Ast × List Ast) :=
  match List.lookup desc bl with
  | none => .error .keyError
  | some cb =>
    match run bl fuel cb cb.code none ⟨stack0, [], []⟩ with
    | .cont _ s => .ok (s.tree, s.stack)
    | .brk _ s => .ok (s.tree, s.stack)
    | .err e => .error e

/-- The search for the top code block in `uDecompiler.decompile`:
first block whose name equals `top_name`. -/
def findTopDesc (bl : Blocks) (topName : String) : Option String :=
  match bl with
  | [] => none
  | (d, cb) :: rest => if cb.nm = topName then some d else findTopDesc rest topName

/-- Outcome of `uDecompiler.decompile` for one module: either the ERROR
sentinel (top block not found) or the lifted statement list that is
unparsed into the output file (the unparser is out of scope). -/
inductive DecOut : Type where
  | errorSentinel
  | dec (tree : List Ast)

/-- `uDecompiler.decompile()` of src/main.py: find the block named
`<module>`; if it is missing, return the ERROR sentinel; otherwise lift
it with `pass_0` starting from the empty operand stack of a fresh
`uDecompiler`.  Exceptions raised by `pass_0` propagate (there is no
try/except in the source). -/
def decompileModule (bl : Blocks) (fuel : Nat) : Except LErr DecOut :=
  match findTopDesc bl "<module>" with
  | none => .ok .errorSentinel
  | some d =>
    match pass0 bl fuel d [] with
    | .error e => .error e
    | .ok (tree, _) => .ok (.dec tree)

/-- The per-module loop of `main` in src/main.py (file discovery,
disassembly output and the actual file writes are out of scope): each
module in turn is decompiled and its output recorded.  The loop body has
no exception handler, so an exception from `decompile` aborts the whole
run and no later module is processed. -/
def mainDriver (fuel : Nat) : List (String × Blocks) →
    Except LErr (List (String × DecOut))
  | [] => .ok []
  | (nm, bl) :: rest =>
    match decompileModule bl fuel with
    | .error e => .error e
    | .ok d =>
      match mainDriver fuel rest with
      | .error e => .error e
      | .ok rs => .ok ((nm, d) :: rs)

end UDis

namespace UDisCfg

open UDis (BC)

/-- A basic block of src/Decompiler.py: label `L<entry offset>` and the
instructions assigned to it (the insertion-ordered `bytecode` dict). -/
structure BasicBlock : Type where
  label : String
  bytecode : List BC
  deriving DecidableEq, Repr

/-- Is `pat` a prefix of `l`. -/
def isPrefixL : List Char → List Char → Bool
  | [], _ => true
  | _ :: _, [] => false
  | a :: as_, b :: bs => a = b && isPrefixL as_ bs

/-- Does `l` contain `pat` as a contiguous substring. -/
def containsL (pat : List Char) : List Char → Bool
  | [] => isPrefixL pat []
  | c :: cs => isPrefixL pat (c :: cs) || containsL pat cs

/-- Python `pat in hay` on strings. -/
def strContains (hay pat : String) : Bool :=
  containsL pat.toList hay.toList

/-- Insert into a sorted duplicate-free list, keeping it sorted and
duplicate-free. -/
def insertS (n : Int) : List Int → List Int
  | [] => [n]
  | m :: ms =>
    if n < m then n :: m :: ms
    else if n = m then m :: ms
    else m :: insertS n ms

/-- Python `sorted(set(l))`. -/
def sortDedup (l : List Int) : List Int :=
  l.foldl (fun acc n => insertS n acc) []

/-- The jump-target collection loop of `uDecompiler.pass_0` in
src/Decompiler.py: UNWIND_JUMP contributes its two whitespace-separated
targets, any other opcode containing "JUMP" contributes `int(operands)`.
`none` models the IndexError/ValueError `int` and indexing can raise. -/
def jumpTargetsOf : List BC → Option (List Int)
  | [] => some []
  | bc :: rest =>
    match jumpTargetsOf rest with
    | none => none
    | some acc =>
      if bc.opcode = "UNWIND_JUMP" then
        let parts := UDis.splitWs bc.operands
        match parts.get? 0, parts.get? 1 with
        | some t0, some t1 =>
          match UDis.pyInt t0, UDis.pyInt t1 with
          | some n0, some n1 => some (n0 :: n1 :: acc)
          | _, _ => none
        | _, _ => none
      else if strContains bc.opcode "JUMP" then
        match UDis.pyInt bc.operands with
        | none => none
        | some n => some (n :: acc)
      else some acc

/-- The partition loop of `uDecompiler.pass_0` in src/Decompiler.py,
with loop state `(i, bytecodes, blocks)`.  `jts` is the mutated target
list `[0] ++ sorted(jump_targets) ++ [9999]`.  Mirrors the source
faithfully: when the loop runs off the end of the instruction list, the
`bytecodes` accumulated for the current segment are discarded (there is
no append after the loop), and the `break` arm appends the accumulated
segment under label `L<jts[i-1]>`. -/
def splitLoop (jts : List Int) : List BC → Nat → List BC → List BasicBlock →
    Option (List BasicBlock)
  | [], _, _, blocks => some blocks
  | bc :: rest, i, cur, blocks =>
    if i = jts.length - 1 then
      match UDis.pyGet jts ((i : Int) - 1) with
      | none => none
      | some t => some (blocks ++ [⟨"L" ++ toString t, cur⟩])
    else
      match UDis.pyGet jts (i : Int), UDis.pyGet jts ((i : Int) + 1) with
      | some start, some stop =>
        if start ≤ (bc.offset : Int) ∧ (bc.offset : Int) < stop then
          splitLoop jts rest i (cur ++ [bc]) blocks
        else
          splitLoop jts rest (i + 1) [bc]
            (blocks ++ [⟨"L" ++ toString start, cur⟩])
      | _, _ => none

/-- `uDecompiler.pass_0` of src/Decompiler.py applied to one code block
whose single initial basic block holds `code`: collect jump targets; if
there are none the block keeps its single `L0` basic block; otherwise
partition with `splitLoop`. -/
def cfgSplitBlock (code : List BC) : Option (List BasicBlock) :=
  match jumpTargetsOf code with
  | none => none
  | some ts =>
    let sorted := sortDedup ts
    if sorted.isEmpty then some [⟨"L0", code⟩]
    else splitLoop (0 :: (sorted ++ [9999])) code 0 [] []

end UDisCfg

namespace UDis

/-- Sequencing on `Flow`: continue a run from where a previous run left
off, propagating `brk` and `err`. -/
def flowBind (x : Flow) (k : Nat → LState → Flow) : Flow :=
  match x with
  | .cont f s => k f s
  | .brk f s => .brk f s
  | .err e => .err e

/-- The operand-stack layout consumed by the CALL_FUNCTION kwargs loop:
each keyword pair sits as value above name. -/
def flatKw : List (Ast × Ast) → List Ast
  | [] => []
  | (k, v) :: ps => v :: k :: flatKw ps

/-- The operand-stack layout consumed by the CALL_METHOD kwargs loop:
each keyword pair sits as value above a constant carrying the name. -/
def flatKwM : List (PyVal × Ast) → List Ast
  | [] => []
  | (k, v) :: ps => v :: .constant k :: flatKwM ps

/-- The S1 scenario bytecode of the spec (section 8). -/
def s1code : List BC :=
  [⟨0, "LOAD_CONST_SMALL_INT", "0"⟩, ⟨2, "LOAD_CONST_NONE", ""⟩,
   ⟨4, "IMPORT_NAME", "\x27os\x27"⟩, ⟨6, "STORE_NAME", "os"⟩,
   ⟨8, "LOAD_CONST_NONE", ""⟩, ⟨10, "RETURN_VALUE", ""⟩]

/-- A module whose only code block is the S1 bytecode. -/
def s1bl : Blocks := [("d", ⟨"<module>", [], s1code⟩)]

/-- A code block that pushes two constants and returns one: it completes
without any error yet leaves one value on the operand stack. -/
def c2bl : Blocks :=
  [("d", ⟨"<module>", [],
    [⟨0, "LOAD_CONST_SMALL_INT", "1"⟩, ⟨2, "LOAD_CONST_SMALL_INT", "2"⟩,
     ⟨4, "RETURN_VALUE", ""⟩]⟩)]

/-- A code block building the source tuple `(1, 2, 3)` and returning it. -/
def c4bl : Blocks :=
  [("d", ⟨"<module>", [],
    [⟨0, "LOAD_CONST_SMALL_INT", "1"⟩, ⟨2, "LOAD_CONST_SMALL_INT", "2"⟩,
     ⟨4, "LOAD_CONST_SMALL_INT", "3"⟩, ⟨6, "BUILD_TUPLE", "3"⟩,
     ⟨8, "RETURN_VALUE", ""⟩]⟩)]

/-- A code block building the source list `[1, 2, 3]` and returning it. -/
def c4bbl : Blocks :=
  [("d", ⟨"<module>", [],
    [⟨0, "LOAD_CONST_SMALL_INT", "1"⟩, ⟨2, "LOAD_CONST_SMALL_INT", "2"⟩,
     ⟨4, "LOAD_CONST_SMALL_INT", "3"⟩, ⟨6, "BUILD_LIST", "3"⟩,
     ⟨8, "RETURN_VALUE", ""⟩]⟩)]

/-- A code block for the source call `f(1, 2, k=5)`: callee, positional
arguments in source order, then the keyword name/value pair, then
CALL_FUNCTION with a POP_TOP lookahead. -/
def c5bl : Blocks :=
  [("d", ⟨"<module>", [],
    [⟨0, "LOAD_NAME", "f"⟩, ⟨2, "LOAD_CONST_SMALL_INT", "1"⟩,
     ⟨4, "LOAD_CONST_SMALL_INT", "2"⟩, ⟨6, "LOAD_CONST_STRING", "\x27k\x27"⟩,
     ⟨8, "LOAD_CONST_SMALL_INT", "5"⟩, ⟨10, "CALL_FUNCTION", "n=2 nkw=1"⟩,
     ⟨12, "POP_TOP", ""⟩, ⟨14, "LOAD_CONST_NONE", ""⟩,
     ⟨16, "RETURN_VALUE", ""⟩]⟩)]

/-- Block table with a module block plus two nested one-block functions:
"f" is a body consisting of a single POP_TOP, "f2" is a body that
assigns a constant to a name. -/
def bl7 : Blocks :=
  [("m", ⟨"<module>", [], [⟨0, "MAKE_FUNCTION", "f"⟩]⟩),
   ("f", ⟨"g", [], [⟨0, "POP_TOP", ""⟩]⟩),
   ("f2", ⟨"g2", [], [⟨0, "LOAD_CONST_NONE", ""⟩, ⟨2, "STORE_NAME", "x"⟩]⟩)]

/-- Instruction list whose final instruction is an ordinary CALL_FUNCTION
but whose POP_JUMP_IF_TRUE breaks out of the loop first. -/
def c10code : List BC :=
  [⟨0, "LOAD_CONST_NONE", ""⟩, ⟨2, "POP_JUMP_IF_TRUE", "0"⟩,
   ⟨4, "CALL_FUNCTION", "n=0 nkw=0"⟩]

/-- A module block around `c10code`. -/
def c10bl : Blocks := [("d", ⟨"<module>", [], c10code⟩)]

/-- A module whose lift pops an empty operand stack (StackUnderflow). -/
def blUnder : Blocks := [("d", ⟨"<module>", [], [⟨0, "POP_TOP", ""⟩]⟩)]

/-- A module that decompiles cleanly to a single return statement. -/
def blGood : Blocks :=
  [("d2", ⟨"<module>", [], [⟨0, "LOAD_CONST_NONE", ""⟩, ⟨2, "RETURN_VALUE", ""⟩]⟩)]

/-- A module with no code block named `<module>`. -/
def blNoTop : Blocks := [("d0", ⟨"main", [], []⟩)]

end UDis

namespace UDisCfg

/-- A four-instruction block with one jump, to offset 4: the cut list is
`[0, 4, 9999]`, so the expected basic blocks of the partition are `L0` with
offsets 0 and 2 and `L4` with offsets 4 and 6. -/
def exC1 : List UDis.BC :=
  [⟨0, "POP_JUMP_IF_FALSE", "4"⟩, ⟨2, "LOAD_CONST_NONE", ""⟩,
   ⟨4, "LOAD_CONST_NONE", ""⟩, ⟨6, "RETURN_VALUE", ""⟩]

end UDisCfg

namespace UDis

theorem headOr_append (l m : List BC) (la : Option BC) :
    headOr (l ++ m) la = headOr l (headOr m la) := by
  cases l <;> cases m <;> rfl

/-- Running `pre ++ post` is running `pre` with the first instruction of
`post` as final lookahead, then running `post` from the state and fuel
left behind. -/
theorem run_append (bl : Blocks) (cb : CBk) (post : List BC) (la : Option BC) :
    ∀ (pre : List BC) (f : Nat) (s : LState),
      run bl f cb (pre ++ post) la s =
        flowBind (run bl f cb pre (headOr post la) s)
          (fun f2 s2 => run bl f2 cb post la s2) := by
  intro pre
  induction pre with
  | nil =>
    intro f s
    simp [run, flowBind]
  | cons p pre2 ih =>
    intro f s
    cases f with
    | zero => simp [run, flowBind]
    | succ g =>
      by_cases hm : p.opcode = "MAKE_FUNCTION"
      · simp only [List.cons_append, run, hm, reduceIte]
        split
        · simp [flowBind]
        · split <;> simp [ih, flowBind]
      · simp only [List.cons_append, run, hm, reduceIte, List.append_eq]
        rw [headOr_append]
        split <;> simp [ih, flowBind]

/-- A GET_ITER_STACK or POP_JUMP_IF_TRUE at the head of the instruction
list ignores its lookahead and everything after it: it pops and exits
the loop (or raises on an empty stack). -/
theorem run_break_head (op : String)
    (hop : op = "GET_ITER_STACK" ∨ op = "POP_JUMP_IF_TRUE")
    (bl : Blocks) (cb : CBk) (off : Nat) (ops : String) (post : List BC)
    (la : Option BC) (f : Nat) (s : LState) :
    run bl f cb (⟨off, op, ops⟩ :: post) la s =
      run bl f cb [⟨off, op, ops⟩] none s := by
  cases f with
  | zero => simp [run]
  | succ g =>
    rcases s with ⟨st, aux, tr⟩
    rcases hop with h | h <;> subst h <;> cases st <;> simp [run, step]

/-- Instructions after a GET_ITER_STACK or POP_JUMP_IF_TRUE never
affect the run. -/
theorem run_break_skip (op : String)
    (hop : op = "GET_ITER_STACK" ∨ op = "POP_JUMP_IF_TRUE")
    (bl : Blocks) (cb : CBk) (off : Nat) (ops : String) (pre post : List BC)
    (la : Option BC) (f : Nat) (s : LState) :
    run bl f cb (pre ++ ⟨off, op, ops⟩ :: post) la s =
      run bl f cb (pre ++ [⟨off, op, ops⟩]) none s := by
  rw [run_append bl cb (⟨off, op, ops⟩ :: post) la pre f s,
    run_append bl cb [⟨off, op, ops⟩] none pre f s]
  simp only [headOr]
  generalize run bl f cb pre (some ⟨off, op, ops⟩) s = w
  cases w with
  | cont f2 s2 =>
    simp only [flowBind]
    exact run_break_head op hop bl cb off ops post la f2 s2
  | brk f2 s2 => rfl
  | err e => rfl

theorem popN_append (l r : List Ast) : popN l.length (l ++ r) = some (l, r) := by
  induction l with
  | nil => rfl
  | cons x xs ih => simp [popN, ih]

theorem popKwPairs_flat (ps : List (Ast × Ast)) (r : List Ast) :
    ∀ acc, popKwPairs ps.length (flatKw ps ++ r) acc = some (acc ++ ps, r) := by
  induction ps with
  | nil => intro acc; simp [popKwPairs, flatKw]
  | cons p ps2 ih =>
    intro acc
    rcases p with ⟨k, v⟩
    simp [flatKw, popKwPairs, ih]

theorem popKwItems_flat (ps : List (PyVal × Ast)) (r : List Ast) :
    ∀ acc, popKwItems ps.length (flatKwM ps ++ r) acc = .ok (acc ++ ps, r) := by
  induction ps with
  | nil => intro acc; simp [popKwItems, flatKwM]
  | cons p ps2 ih =>
    intro acc
    rcases p with ⟨k, v⟩
    simp [flatKwM, popKwItems, ih]

end UDis

namespace UDisCfg

/-- Claim C1 (code divergence witness): on a four-instruction block with a
single jump to offset 4, the CFG builder of src/Decompiler.py returns only
the basic block L0 holding offsets 0 and 2; the final segment (offsets 4
and 6, the instructions at and after the last cut) is dropped, because the
loop never flushes the bytecodes accumulated for the last segment.  The
union of the produced basic blocks (2 instructions) is strictly smaller
than the original instruction list (4 instructions), refuting partition
totality. -/
theorem c1_cfg_drops_final_segment :
    cfgSplitBlock exC1 =
      some [⟨"L0", [⟨0, "POP_JUMP_IF_FALSE", "4"⟩, ⟨2, "LOAD_CONST_NONE", ""⟩]⟩] ∧
    exC1.length = 4 := by
  exact ⟨by with_unfolding_all rfl, rfl⟩

end UDisCfg

namespace UDis

/-- Claim C2 (code divergence witness): a code block that pushes two
constants and returns one is lifted to completion with no error reported,
yet the operand stack still holds one expression when `pass_0` finishes.
The lifter performs no emptiness check and reports nothing. -/
theorem c2_completes_with_nonempty_stack :
    pass0 c2bl 16 "d" [] =
      .ok ([.ret (.constant (.vInt 2))], [.constant (.vInt 1)]) := by
  with_unfolding_all rfl

/-- Claim C3 (code divergence witness): decompiling the S1 module yields
two statements, the expected Import of os followed by a spurious
module-level return of None appended by the RETURN_VALUE case, not
exactly the single Import statement the claim demands. -/
theorem c3_s1_emits_trailing_return :
    decompileModule s1bl 32 =
      .ok (.dec [.imprt [⟨.vStr "os", none⟩], .ret (.constant .vNone)]) := by
  with_unfolding_all rfl

/-- Claim C4 (code divergence witness): lifting the bytecode of the source
tuple `(1, 2, 3)` (respectively the list `[1, 2, 3]`) produces a Tuple
(respectively List) node whose elements are `[3, 2, 1]`: the first-popped
expression is the FIRST element, so the element order is the reverse of
source order, contradicting the claim (the sibling BUILD_TUPLE case in
src/Decompiler.py `do_bb`, which inserts each pop at index 0, matches the
claimed order). -/
theorem c4_build_collections_reverse_source_order :
    pass0 c4bl 16 "d" [] =
      .ok ([.ret (.tupleE [.constant (.vInt 3), .constant (.vInt 2),
        .constant (.vInt 1)])], []) ∧
    pass0 c4bbl 16 "d" [] =
      .ok ([.ret (.listE [.constant (.vInt 3), .constant (.vInt 2),
        .constant (.vInt 1)])], []) := by
  exact ⟨by with_unfolding_all rfl, by with_unfolding_all rfl⟩

/-- Claim C5 (code divergence witness): lifting the bytecode of the source
call `f(1, 2, k=5)` pops the keyword pair value-before-name as claimed,
but the positional arguments are NOT reversed into source order: the Call
node carries `[2, 1]` (first-popped first), the reverse of source order. -/
theorem c5_call_function_keeps_popped_arg_order :
    pass0 c5bl 16 "d" [] =
      .ok ([.call (.name "f" .load) [.constant (.vInt 2), .constant (.vInt 1)]
              [(.constant (.vStr "k"), .constant (.vInt 5))],
            .ret (.constant .vNone)], []) := by
  with_unfolding_all rfl

/-- Claim C6 counterexample: with a first module whose lift underflows the
operand stack and a healthy second module, the driver aborts with the
underflow instead of writing an ERROR output for module one and
continuing: no output is produced for either module, although the second
module alone decompiles fine. -/
theorem c6_underflow_aborts_run :
    mainDriver 8 [("m1", blUnder), ("m2", blGood)] = .error .underflow ∧
    decompileModule blGood 8 = .ok (.dec [.ret (.constant .vNone)]) := by
  exact ⟨by with_unfolding_all rfl, by with_unfolding_all rfl⟩

/-- Claim C6 as amended: only the missing-top-block failure produces the
ERROR sentinel, and then processing continues with the next module; an
exception such as StackUnderflow raised during decompilation is not
caught at the module boundary — it propagates out of the driver loop, so
no output is recorded for the failing module or any later module. -/
theorem c6_amended_module_error_handling :
    (∀ (fuel : Nat) (nm : String) (bl : Blocks) (rest : List (String × Blocks)),
      findTopDesc bl "<module>" = none →
      mainDriver fuel ((nm, bl) :: rest) =
        (mainDriver fuel rest).map (fun rs => (nm, DecOut.errorSentinel) :: rs)) ∧
    (∀ (fuel : Nat) (nm : String) (bl : Blocks) (rest : List (String × Blocks))
        (e : LErr),
      decompileModule bl fuel = .error e →
      mainDriver fuel ((nm, bl) :: rest) = .error e) := by
  constructor
  · intro fuel nm bl rest h
    simp only [mainDriver, decompileModule, h]
    cases mainDriver fuel rest <;> simp [Except.map]
  · intro fuel nm bl rest e h
    simp [mainDriver, h]

/-- Witness for the amended claim C6, at a module with no top block (the
sentinel is recorded and the run completes) and at a module whose lift
underflows (the run aborts with the error). -/
theorem c6_amended_module_error_handling_witness :
    mainDriver 4 [("a", blNoTop)] = .ok [("a", .errorSentinel)] ∧
    mainDriver 8 [("m1", blUnder), ("m2", blGood)] = .error .underflow := by
  constructor
  · have h := c6_amended_module_error_handling.1 4 "a" blNoTop []
      (by with_unfolding_all rfl)
    simpa [mainDriver, Except.map] using h
  · exact c6_amended_module_error_handling.2 8 "m1" blUnder [("m2", blGood)]
      .underflow (by with_unfolding_all rfl)

/-- Claim C7 counterexample: the nested lift triggered by MAKE_FUNCTION
does NOT run on a fresh operand stack.  Lifting the module of `bl7`
(whose body is a single MAKE_FUNCTION of a one-POP_TOP function) succeeds
exactly when the ENCLOSING operand stack is non-empty: with one value on
the outer stack the nested POP_TOP consumes that value, and with an empty
outer stack the nested POP_TOP underflows.  Under the claimed fresh-stack
semantics both runs would underflow identically. -/
theorem c7_nested_lift_sees_outer_stack :
    pass0 bl7 3 "m" [.constant .vNone] = .ok ([], [.functionDef "g" [] []]) ∧
    pass0 bl7 3 "m" [] = .error .underflow := by
  exact ⟨by with_unfolding_all rfl, by with_unfolding_all rfl⟩

/-- Claim C7 as amended: a nested lift uses a fresh auxiliary stack and a
fresh statement list, but operates on the SAME operand stack as the
enclosing lift.  First conjunct: a value pushed by the enclosing block is
consumed by the nested one-POP_TOP body, for any outer stack, auxiliary
stack and statement list.  Second conjunct: the nested body that stores a
constant to a name never sees the enclosing auxiliary stack — even when
the outer auxiliary stack is arbitrary (for example holding pending
markers), the nested STORE_NAME takes the empty-auxiliary branch and
produces an Assign statement. -/
theorem c7_amended_nested_lift_stacks :
    (∀ (cb : CBk) (f off : Nat) (la : Option BC) (v : Ast)
        (st : List Ast) (aux : List PyVal) (tr : List Ast),
      run bl7 (f+2) cb [⟨off, "MAKE_FUNCTION", "f"⟩] la ⟨v :: st, aux, tr⟩ =
        .cont (f+1) ⟨Ast.functionDef "g" [] [] :: st, aux, tr⟩) ∧
    (∀ (cb : CBk) (f off : Nat) (la : Option BC)
        (st : List Ast) (aux : List PyVal) (tr : List Ast),
      run bl7 (f+3) cb [⟨off, "MAKE_FUNCTION", "f2"⟩] la ⟨st, aux, tr⟩ =
        .cont (f+2) ⟨Ast.functionDef "g2" []
          [Ast.assign [Ast.name "x" .store] (Ast.constant .vNone)] :: st, aux, tr⟩) := by
  constructor
  · intro cb f off la v st aux tr
    simp [run, step, bl7, List.lookup]
  · intro cb f off la st aux tr
    simp [run, step, bl7, List.lookup]

/-- Claim C8 counterexample: on the stack `[3, 2, 1]` (top first, so
a = 3, b = 2, c = 1), ROT_THREE produces `[3, 1, 2]` = [a, c, b], not the
claimed `[1, 3, 2]` = [c, a, b]: the top element stays on top and the
second and third are swapped; the bottom of the three does NOT move to
the top. -/
theorem c8_rot_three_not_bottom_to_top :
    run [] 1 ⟨"x", [], []⟩ [⟨0, "ROT_THREE", ""⟩] none
        ⟨[.constant (.vInt 3), .constant (.vInt 2), .constant (.vInt 1)], [], []⟩ =
      .cont 0 ⟨[.constant (.vInt 3), .constant (.vInt 1), .constant (.vInt 2)], [], []⟩ ∧
    ¬ (run [] 1 ⟨"x", [], []⟩ [⟨0, "ROT_THREE", ""⟩] none
        ⟨[.constant (.vInt 3), .constant (.vInt 2), .constant (.vInt 1)], [], []⟩ =
      .cont 0 ⟨[.constant (.vInt 1), .constant (.vInt 3), .constant (.vInt 2)], [], []⟩) := by
  have h1 : run [] 1 ⟨"x", [], []⟩ [⟨0, "ROT_THREE", ""⟩] none
      ⟨[.constant (.vInt 3), .constant (.vInt 2), .constant (.vInt 1)], [], []⟩ =
      .cont 0 ⟨[.constant (.vInt 3), .constant (.vInt 1), .constant (.vInt 2)], [], []⟩ := by
    with_unfolding_all rfl
  refine ⟨h1, fun h => ?_⟩
  rw [h1] at h
  simp at h

/-- Claim C8 as amended: ROT_THREE maps a stack `[a, b, c]` (top first) to
`[a, c, b]`: the top entry stays on top and the two entries beneath it are
swapped, for every enclosing state. -/
theorem c8_amended_rot_three_swaps_lower_two :
    ∀ (bl : Blocks) (cb : CBk) (f off : Nat) (ops : String) (la : Option BC)
      (a b c : Ast) (rest : List Ast) (aux : List PyVal) (tr : List Ast),
      run bl (f+1) cb [⟨off, "ROT_THREE", ops⟩] la ⟨a :: b :: c :: rest, aux, tr⟩ =
        .cont f ⟨a :: c :: b :: rest, aux, tr⟩ := by
  intro bl cb f off ops la a b c rest aux tr
  simp [run, step]

/-- Claim C9: a GET_ITER_STACK or POP_JUMP_IF_TRUE instruction pops
exactly one value and exits the instruction loop.  Conjuncts one and four:
for an arbitrary prefix, instructions after the break opcode never affect
the result (so the FIRST such instruction reached is the one that acts,
and no later instruction contributes any statement or stack effect).
Conjuncts two and five: at the break instruction with a non-empty operand
stack, exactly the top value is popped and the loop exits, returning the
state (including the statement list gathered so far, which `pass0` then
returns as the body).  Conjuncts three and six: with an empty operand
stack the pop raises the underflow error. -/
theorem c9_break_opcodes_stop_block :
    (∀ (bl : Blocks) (cb : CBk) (off : Nat) (ops : String) (pre post : List BC)
        (la : Option BC) (f : Nat) (s : LState),
      run bl f cb (pre ++ ⟨off, "GET_ITER_STACK", ops⟩ :: post) la s =
        run bl f cb (pre ++ [⟨off, "GET_ITER_STACK", ops⟩]) none s) ∧
    (∀ (bl : Blocks) (cb : CBk) (off : Nat) (ops : String) (la : Option BC)
        (f : Nat) (v : Ast) (rest : List Ast) (aux : List PyVal) (tr : List Ast),
      run bl (f+1) cb [⟨off, "GET_ITER_STACK", ops⟩] la ⟨v :: rest, aux, tr⟩ =
        .brk f ⟨rest, aux, tr⟩) ∧
    (∀ (bl : Blocks) (cb : CBk) (off : Nat) (ops : String) (la : Option BC)
        (f : Nat) (aux : List PyVal) (tr : List Ast),
      run bl (f+1) cb [⟨off, "GET_ITER_STACK", ops⟩] la ⟨[], aux, tr⟩ =
        .err .underflow) ∧
    (∀ (bl : Blocks) (cb : CBk) (off : Nat) (ops : String) (pre post : List BC)
        (la : Option BC) (f : Nat) (s : LState),
      run bl f cb (pre ++ ⟨off, "POP_JUMP_IF_TRUE", ops⟩ :: post) la s =
        run bl f cb (pre ++ [⟨off, "POP_JUMP_IF_TRUE", ops⟩]) none s) ∧
    (∀ (bl : Blocks) (cb : CBk) (off : Nat) (ops : String) (la : Option BC)
        (f : Nat) (v : Ast) (rest : List Ast) (aux : List PyVal) (tr : List Ast),
      run bl (f+1) cb [⟨off, "POP_JUMP_IF_TRUE", ops⟩] la ⟨v :: rest, aux, tr⟩ =
        .brk f ⟨rest, aux, tr⟩) ∧
    (∀ (bl : Blocks) (cb : CBk) (off : Nat) (ops : String) (la : Option BC)
        (f : Nat) (aux : List PyVal) (tr : List Ast),
      run bl (f+1) cb [⟨off, "POP_JUMP_IF_TRUE", ops⟩] la ⟨[], aux, tr⟩ =
        .err .underflow) := by
  refine ⟨?_, ?_, ?_, ?_, ?_, ?_⟩
  · intro bl cb off ops pre post la f s
    exact run_break_skip "GET_ITER_STACK" (Or.inl rfl) bl cb off ops pre post la f s
  · intro bl cb off ops la f v rest aux tr
    simp [run, step]
  · intro bl cb off ops la f aux tr
    simp [run, step]
  · intro bl cb off ops pre post la f s
    exact run_break_skip "POP_JUMP_IF_TRUE" (Or.inr rfl) bl cb off ops pre post la f s
  · intro bl cb off ops la f v rest aux tr
    simp [run, step]
  · intro bl cb off ops la f aux tr
    simp [run, step]

/-- Claim C10 counterexample: a code block whose FINAL instruction is an
ordinary CALL_FUNCTION (the auxiliary stack is empty throughout, so the
class path is never taken) is nevertheless lifted to a statement list,
because the earlier POP_JUMP_IF_TRUE breaks out of the loop before the
call is reached. -/
theorem c10_tree_despite_final_call :
    pass0 c10bl 16 "d" [] = .ok ([], []) ∧
    c10code.getLast?.map BC.opcode = some "CALL_FUNCTION" := by
  exact ⟨by with_unfolding_all rfl, by with_unfolding_all rfl⟩

/-- Claim C10 as amended: when an ordinary CALL_FUNCTION (first conjunct)
or a CALL_METHOD (second conjunct) is REACHED as the
final instruction of the lifted list (the run of the prefix continues into
it with fuel to spare), the class path is not taken, the operand parse
succeeds and the stack is deep enough for all the pops, then the POP_TOP
lookahead reads the opcode of the nonexistent next instruction and the
lift fails with the NoneType attribute error instead of producing a tree.
A block ending in such a call can still return a statement list when an
earlier break instruction exits the loop first (see the counterexample). -/
theorem c10_amended_reached_final_call_fails :
    (∀ (bl : Blocks) (cb : CBk) (pre : List BC) (s : LState)
        (f f2 : Nat) (kw : List (Ast × Ast)) (args : List Ast) (fn : Ast)
        (rest : List Ast) (aux : List PyVal) (tr : List Ast)
        (off : Nat) (ops : String) (n nkw : Int),
      run bl f cb pre (some ⟨off, "CALL_FUNCTION", ops⟩) s =
        .cont (f2+1) ⟨flatKw kw ++ (args ++ fn :: rest), aux, tr⟩ →
      aux.head? ≠ some (PyVal.vStr "BUILD_CLASS") →
      parseNkw ops = .ok (n, nkw) →
      nkw.toNat = kw.length → n.toNat = args.length →
      run bl f cb (pre ++ [⟨off, "CALL_FUNCTION", ops⟩]) none s = .err .noneType) ∧
    (∀ (bl : Blocks) (cb : CBk) (pre : List BC) (s : LState)
        (f f2 : Nat) (kwm : List (PyVal × Ast)) (args : List Ast) (fn : Ast)
        (rest : List Ast) (aux : List PyVal) (tr : List Ast)
        (off : Nat) (ops : String) (n nkw : Int),
      run bl f cb pre (some ⟨off, "CALL_METHOD", ops⟩) s =
        .cont (f2+1) ⟨flatKwM kwm ++ (args ++ fn :: rest), aux, tr⟩ →
      parseNkw ops = .ok (n, nkw) →
      nkw.toNat = kwm.length → n.toNat = args.length →
      run bl f cb (pre ++ [⟨off, "CALL_METHOD", ops⟩]) none s = .err .noneType) := by
  constructor
  · intro bl cb pre s f f2 kw args fn rest aux tr off ops n nkw h1 h2 h3 h4 h5
    rw [run_append bl cb [⟨off, "CALL_FUNCTION", ops⟩] none pre f s]
    simp only [headOr]
    rw [h1]
    simp only [flowBind, run, step, reduceIte]
    rw [if_neg h2, h3]
    simp only [h4, h5, popKwPairs_flat, popN_append, List.nil_append]
    simp [headOr]
  · intro bl cb pre s f f2 kwm args fn rest aux tr off ops n nkw h1 h3 h4 h5
    rw [run_append bl cb [⟨off, "CALL_METHOD", ops⟩] none pre f s]
    simp only [headOr]
    rw [h1]
    simp only [flowBind, run, step, reduceIte]
    rw [h3]
    simp only [h4, h5, popKwItems_flat, popN_append, List.nil_append]
    simp [headOr]

/-- Witness for the amended claim C10: a two-instruction block loading a
name and then calling it with no arguments, as last instruction, fails
with the NoneType lookahead error. -/
theorem c10_amended_reached_final_call_fails_witness :
    run [] 4 ⟨"m", [], []⟩
        [⟨0, "LOAD_NAME", "f"⟩, ⟨2, "CALL_FUNCTION", "n=0 nkw=0"⟩] none
        ⟨[], [], []⟩ = .err .noneType := by
  exact c10_amended_reached_final_call_fails.1 [] ⟨"m", [], []⟩
    [⟨0, "LOAD_NAME", "f"⟩] ⟨[], [], []⟩
    4 2 [] [] (.name "f" .load) [] [] [] 2 "n=0 nkw=0" 0 0
    (by with_unfolding_all rfl) (by simp) (by with_unfolding_all rfl) rfl rfl

end UDis
